import Mathlib

/-!
Shallow embedding of the extraction core of backend/scraper.py: the safe_get
navigation wrapper, the scroll_page pagination loop, the listing scrapers
scrape_live_matches and scrape_past_matches, and the commentary extractor
parse_commentary_from_soup together with the scrape_match_commentary pipeline.

DOM elements are modelled by the outcomes of the queries the source performs
on them: an anchor carries its href attribute and its chain of ancestor
containers, a commentary event element carries the stripped text of its four
optional sub-elements (or a parse exception), and a browser session carries
the result of every navigation, wait and click it is asked for.  Python
exceptions are values of an error type; every handler in the source becomes a
match on that value, so the embedded functions are total.
-/

/-- Lowercases every character of a string; models the Python str.lower calls
on class names and container text in the scraper. -/
def strLower (s : String) : String :=
  ⟨s.data.map Char.toLower⟩

/-- Substring test over strings: true when pat occurs contiguously in s.
Models the Python membership test needle in haystack. -/
def containsSubstr (s pat : String) : Bool :=
  (List.range (s.length + 1)).any fun i => pat.data.isPrefixOf (s.data.drop i)

/-- Single-character membership in a string; models the Python test
open-paren in cmd_over_text at scraper.py line 198. -/
def containsChar (s : String) (c : Char) : Bool :=
  s.data.contains c

/-- Python str.strip(chars): removes any of the given characters from both
ends of the string; models full_entry_text.strip at scraper.py line 210,
whose argument is the character set space and hyphen. -/
def pyStrip (s : String) (cs : List Char) : String :=
  ⟨((s.data.dropWhile (fun c => cs.contains c)).reverse.dropWhile
      (fun c => cs.contains c)).reverse⟩

/-- Boolean test that pre is a leading segment of s; models the scheme and
slash tests used when resolving an href against the base URL. -/
def strStartsWith (s pre : String) : Bool :=
  pre.data.isPrefixOf s.data

/-- The four optional sub-fields of one commentary event element, each the
stripped text returned by get_text for the corresponding select_one result;
none models a missing sub-element (scraper.py lines 184-193). -/
structure EventFields where
  cmdOver : Option String
  ovRun : Option String
  startText : Option String
  text : Option String

/-- One element returned by soup.select for the event selector: either its
parsed sub-fields, or a parse exception raised while reading them, caught by
the per-element handler at scraper.py lines 215-217. -/
abbrev EventElem := Except String EventFields

/-- The over_info merge rule of scraper.py lines 198-203: an over label
without a parenthesis character is combined with the run label inside
parentheses, an over label with a parenthesis is used verbatim, and with no
over label the run label alone is used. -/
def overInfoOf (cmd_over_text ov_run_text : String) : String :=
  if cmd_over_text ≠ "" ∧ containsChar cmd_over_text '(' = false then
    cmd_over_text ++ " (" ++ ov_run_text ++ ")"
  else if cmd_over_text ≠ "" then
    cmd_over_text
  else
    ov_run_text

/-- Join of over info, start text and description with the hyphen separator,
dropping empty parts, then stripping stray separator characters from both
ends (scraper.py lines 206-210). -/
def joinedEntry (over_info commentary_start_text commentary_text : String) : String :=
  pyStrip
    (String.intercalate " - "
      (([over_info, commentary_start_text, commentary_text]).filter (fun p => p != "")))
    [' ', '-']

/-- The per-element body of parse_commentary_from_soup (scraper.py lines
195-213): an element with an empty description yields nothing; otherwise the
joined entry is kept exactly when it is longer than 5 characters. -/
def processEvent (f : EventFields) : Option String :=
  if f.text.getD "" = "" then none
  else if 5 < (joinedEntry (overInfoOf (f.cmdOver.getD "") (f.ovRun.getD ""))
      (f.startText.getD "") (f.text.getD "")).length then
    some (joinedEntry (overInfoOf (f.cmdOver.getD "") (f.ovRun.getD ""))
      (f.startText.getD "") (f.text.getD ""))
  else
    none

/-- What one event element contributes to parsed_entries: an element whose
parse raised is skipped by the handler at scraper.py lines 215-217, otherwise
the per-element body decides. -/
def eventRecord : EventElem → Option String
  | .ok f => processEvent f
  | .error _ => none

/-- parse_commentary_from_soup (scraper.py lines 163-221) over the element
model: with no matched elements the empty list is returned at line 179;
otherwise parsed_entries is accumulated in DOM encounter order and reversed
at line 221 so the oldest entry comes first. -/
def parse_commentary_from_soup (elems : List EventElem) : List String :=
  if elems.isEmpty then []
  else (elems.filterMap eventRecord).reverse

/-- The kept records in DOM encounter order: the parsed_entries list of
scraper.py line 213 before the final reversal at line 221. -/
def keptRecords (elems : List EventElem) : List String :=
  elems.filterMap eventRecord

/-- An ancestor element of a match anchor: its class attribute tokens and its
rendered text, the two things the live heuristic reads at scraper.py lines
97-100. -/
structure Container where
  classes : List String
  textContent : String

/-- One anchor element of a listing page: its href attribute and its chain of
ancestor containers, nearest ancestor first. -/
structure LinkTag where
  href : Option String
  ancestors : List Container

/-- Whether a container matches the compiled class pattern live or
status--live with IGNORECASE (scraper.py line 97).  Since live is contained
in status--live, a search with that pattern succeeds exactly when some class
token contains live case-insensitively. -/
def classMatchesLiveRe (c : Container) : Bool :=
  c.classes.any fun cls => containsSubstr (strLower cls) "live"

/-- link_tag.find_parent with the live class pattern: the nearest ancestor
whose class attribute matches (scraper.py line 97). -/
def find_parent_live (ancestors : List Container) : Option Container :=
  ancestors.find? classMatchesLiveRe

/-- The is_live computation of scraper.py lines 95-101: the nearest ancestor
with a live-matching class must exist and either carry the exact class token
live or have text containing live case-insensitively. -/
def liveIndicator (t : LinkTag) : Bool :=
  match find_parent_live t.ancestors with
  | some parent_container =>
    parent_container.classes.contains "live"
      || containsSubstr (strLower parent_container.textContent) "live"
  | none => false

/-- Does the pattern slash-match-slash-digits-slash-digits match at the head
of this character list (one position of the re.search at scraper.py line 81).
The digit run is maximal; since a digit run cannot contain a slash, the
pattern matches here exactly when the maximal run is nonempty and is followed
by a slash and a further digit. -/
def matchPatHere (l : List Char) : Bool :=
  if l.take 7 = "/match/".data then
    let rest := l.drop 7
    let ds := rest.takeWhile Char.isDigit
    (!ds.isEmpty) &&
      (match rest.drop ds.length with
       | '/' :: c :: _ => c.isDigit
       | _ => false)
  else false

/-- re.search of the match-URL pattern over an href, as used by find_all at
scraper.py lines 81 and 140: the pattern may match at any position. -/
def searchMatchUrl (s : String) : Bool :=
  (List.range (s.length + 1)).any fun i => matchPatHere (s.data.drop i)

/-- The base URL constant of scraper.py line 21. -/
def BASE_URL : String := "https://www.iplt20.com"

/-- Model of urllib.parse.urljoin restricted to the href shapes this site
produces against a base with no path: absolute http or https hrefs pass
through, scheme-relative hrefs take the https scheme of the base, absolute
paths are appended to the base, and other relative paths get a slash
inserted. -/
def urljoin (base rel : String) : String :=
  if rel = "" then base
  else if strStartsWith rel "http://" || strStartsWith rel "https://" then rel
  else if strStartsWith rel "//" then "https:" ++ rel
  else if strStartsWith rel "/" then base ++ rel
  else base ++ "/" ++ rel

/-- The selenium exceptions the scraper distinguishes; every constructor is a
WebDriverException subclass, as in selenium.common.exceptions. -/
inductive DrvErr
  | timeout
  | noSuchElement
  | clickIntercepted
  | staleElement
  | webdriver

/-- safe_get (scraper.py lines 28-35): driver.get either succeeds or raises a
WebDriverException, which is caught and reported as False. -/
def safe_get (navResult : Except DrvErr Unit) : Bool :=
  match navResult with
  | .ok _ => true
  | .error _ => false

/-- The browser-visible state of one listing scrape: the navigation outcome,
the outcome of the wait for a match link to be present (false models the
TimeoutException caught at scraper.py line 111 or 152), and every anchor
element of the rendered page in document order. -/
structure ListingPage where
  navResult : Except DrvErr Unit
  waitOk : Bool
  tags : List LinkTag

/-- The find_all predicate of scraper.py line 81 and line 140: the href
attribute is present and the match-URL pattern matches it. -/
def hrefMatches (t : LinkTag) : Bool :=
  match t.href with
  | some h => searchMatchUrl h
  | none => false

/-- The anchors kept by soup.find_all with the href pattern (scraper.py line
81 and line 140): those whose href attribute is present and matches. -/
def matchLinkTags (tags : List LinkTag) : List LinkTag :=
  tags.filter hrefMatches

/-- The per-anchor loop of scrape_live_matches (scraper.py lines 84-109),
returning the live_matches list and the processed_urls set.  The Python set
processed_urls is modelled as a first-insertion-ordered duplicate-free list;
the properties proved below concern only membership and duplication, never
set iteration order. -/
def liveLoop : List LinkTag → List String → List String → List String × List String
  | [], live_matches, processed_urls => (live_matches, processed_urls)
  | t :: rest, live_matches, processed_urls =>
    match t.href with
    | none => liveLoop rest live_matches processed_urls
    | some match_url =>
      if match_url = "" then liveLoop rest live_matches processed_urls
      else
        let absolute_url := urljoin BASE_URL match_url
        if absolute_url ∈ processed_urls then liveLoop rest live_matches processed_urls
        else
          liveLoop rest
            (if liveIndicator t then live_matches ++ [absolute_url] else live_matches)
            (processed_urls ++ [absolute_url])

/-- scrape_live_matches (scraper.py lines 62-117): navigation failure and the
presence-wait timeout both return the empty list, otherwise the per-anchor
loop runs over the anchors whose href matches the match-URL pattern. -/
def scrape_live_matches (page : ListingPage) : List String :=
  if !(safe_get page.navResult) then []
  else if !page.waitOk then []
  else (liveLoop (matchLinkTags page.tags) [] []).1

/-- The per-anchor loop of scrape_past_matches (scraper.py lines 144-150);
the Python set past_matches_urls is modelled as a first-insertion-ordered
duplicate-free list. -/
def pastLoop : List LinkTag → List String → List String
  | [], past_matches_urls => past_matches_urls
  | t :: rest, past_matches_urls =>
    match t.href with
    | none => pastLoop rest past_matches_urls
    | some match_url =>
      if match_url = "" then pastLoop rest past_matches_urls
      else
        let absolute_url := urljoin BASE_URL match_url
        pastLoop rest
          (if absolute_url ∈ past_matches_urls then past_matches_urls
           else past_matches_urls ++ [absolute_url])

/-- scrape_past_matches (scraper.py lines 119-158). -/
def scrape_past_matches (page : ListingPage) : List String :=
  if !(safe_get page.navResult) then []
  else if !page.waitOk then []
  else pastLoop (matchLinkTags page.tags) []

/-- The scroll loop of scroll_page (scraper.py lines 41-58), with explicit
fuel.  Iteration j scrolls, sleeps and re-reads the height: err j = true
models a WebDriverException during the iteration, which breaks the loop at
line 58; H j is the height read at iteration j.  The result is some j when
the loop stops at iteration j within the given fuel and none when the fuel
runs out first, so the loop stops within n iterations exactly when fuel n
yields some. -/
def scroll_loop (err : Nat → Bool) (H : Nat → Int) :
    Nat → Nat → Int → Nat → Option Nat
  | 0, _, _, _ => none
  | fuel + 1, j, last_height, stall =>
    if err j then some j
    else if H j = last_height then
      if 3 ≤ stall + 1 then some j
      else scroll_loop err H fuel (j + 1) (H j) (stall + 1)
    else scroll_loop err H fuel (j + 1) (H j) 0

/-- scroll_page (scraper.py lines 37-58): the initial height H 0 is read
before the loop at line 39, the first loop iteration is j = 1, and the stall
counter starts at 0. -/
def scroll_page (err : Nat → Bool) (H : Nat → Int) (fuel : Nat) : Option Nat :=
  scroll_loop err H fuel 1 (H 0) 0

/-- The height sequence changes value at most k times: a finite set of size
at most k covers every index where the read differs from the previous one.
In particular such a sequence stabilizes after its last change. -/
def ChangesBounded (H : Nat → Int) (k : Nat) : Prop :=
  ∃ S : Finset ℕ, S.card ≤ k ∧ ∀ j, 1 ≤ j → H j ≠ H (j - 1) → j ∈ S

/-- Outcomes of the click block guarded by the handler at scraper.py line
299: success, an exception caught there (click-intercepted, stale-element or
timeout, falling through to parsing), or any other exception, which escapes
to the per-inning handler. -/
inductive ClickOutcome
  | ok
  | caught
  | uncaught

/-- Which exceptions the handler at scraper.py line 299 catches. -/
def caughtByClickHandler : DrvErr → Bool
  | .clickIntercepted => true
  | .staleElement => true
  | .timeout => true
  | _ => false

/-- The browser-visible state of one scrape_match_commentary call: the
navigation outcome, the initial wait for tabs or container, the tabs found
and re-found, the clickable wait, the click, the two container waits, the
page-source read, and the event elements of the rendered page. -/
structure MatchPage where
  navResult : Except DrvErr Unit
  initialWait : Except DrvErr Unit
  tabsFound : List String
  tabsRefound : List String
  clickableWait : Except DrvErr Unit
  clickResult : Except DrvErr Unit
  containerWaitAfterClick : Except DrvErr Unit
  containerWaitNoTabs : Except DrvErr Unit
  pageSourceOk : Bool
  events : List EventElem

/-- The clickable wait, click and post-click container wait of scraper.py
lines 286-293, classified by the handler at line 299. -/
def clickPath (p : MatchPage) : ClickOutcome :=
  match p.clickableWait with
  | .error e => if caughtByClickHandler e then .caught else .uncaught
  | .ok _ =>
    match p.clickResult with
    | .error e => if caughtByClickHandler e then .caught else .uncaught
    | .ok _ =>
      match p.containerWaitAfterClick with
      | .error e => if caughtByClickHandler e then .caught else .uncaught
      | .ok _ => .ok

/-- Page-source retrieval and parse (scraper.py lines 308-319); a failure
while reading the page source raises to the per-inning handler. -/
def parsePhase (p : MatchPage) : Except Unit (List String) :=
  if p.pageSourceOk then .ok (parse_commentary_from_soup p.events)
  else .error ()

/-- The body of the single inning iteration (scraper.py lines 273-319).  A
result of .error models an exception reaching the per-inning handler at line
321, which continues, ends the loop and leaves commentary_data empty; the
break at line 280 when the re-found tabs are out of range ends the loop with
commentary_data still empty. -/
def inningBody (p : MatchPage) (innings_tabs : List String) : Except Unit (List String) :=
  if innings_tabs ≠ [] ∧ 0 < innings_tabs.length then
    if p.tabsRefound.length ≤ 0 then .ok []
    else
      match clickPath p with
      | .ok => parsePhase p
      | .caught => parsePhase p
      | .uncaught => .error ()
  else
    match p.containerWaitNoTabs with
    | .ok _ => parsePhase p
    | .error _ => .error ()

/-- scrape_match_commentary (scraper.py lines 224-338).  When safe_get
reports failure the function returns the empty list at line 248.  A timeout
or no-such-element from the initial wait is caught at lines 259-264 and the
tab list is taken empty; any other exception there escapes to the outer
handlers at lines 327-335, every one of which returns the empty list. -/
def scrape_match_commentary (p : MatchPage) : List String :=
  if !(safe_get p.navResult) then []
  else
    match
      (match p.initialWait with
       | .ok _ => some p.tabsFound
       | .error .timeout => some []
       | .error .noSuchElement => some []
       | .error _ => none : Option (List String))
    with
    | none => []
    | some innings_tabs =>
      match inningBody p innings_tabs with
      | .ok data => data
      | .error _ => []

/-- Claim-level predicate: the anchor passes the find_all filter and its href
resolves to the given absolute URL (scraper.py lines 81-89). -/
def resolvesTo (t : LinkTag) (u : String) : Prop :=
  ∃ m, t.href = some m ∧ m ≠ "" ∧ searchMatchUrl m = true ∧ urljoin BASE_URL m = u

/-- Scenario B anchor inside a container with class status--live whose text
does not itself mention live. -/
def tagStatusLive : LinkTag :=
  ⟨some "/match/2024/1101", [⟨["status--live"], "MI vs CSK"⟩]⟩

/-- Scenario B anchor inside a plain container. -/
def tagPlain : LinkTag :=
  ⟨some "/match/2024/1102", [⟨["match-card"], "RCB vs KKR"⟩]⟩

/-- Scenario B listing page: one live-marked anchor, one plain anchor. -/
def scenarioBPage : ListingPage :=
  ⟨.ok (), true, [tagStatusLive, tagPlain]⟩

/-- Scenario B anchor whose status--live container also has text containing
LIVE. -/
def tagStatusLiveText : LinkTag :=
  ⟨some "/match/2024/1101", [⟨["status--live"], "LIVE - MI vs CSK"⟩]⟩

/-- Scenario B listing page whose live container also signals live through
its text. -/
def scenarioBLivePage : ListingPage :=
  ⟨.ok (), true, [tagStatusLiveText, tagPlain]⟩

/-- A height sequence with a single change, preceded by two stalled reads:
0, 0, 0, 1, 1, 1, ... -/
def heightSeqC5 : Nat → Int := fun j => if j < 3 then 0 else 1

/-- A scroll run with no scripting errors. -/
def noScrollErr : Nat → Bool := fun _ => false

/-- First occurrence of a duplicated match URL, in a container with no live
marker. -/
def tagFirstDup : LinkTag :=
  ⟨some "/match/2024/1103", [⟨["fixture-card"], "GT vs LSG"⟩]⟩

/-- Later occurrence of the same match URL, in a container with the exact
live class token. -/
def tagLaterDup : LinkTag :=
  ⟨some "/match/2024/1103", [⟨["live"], "LIVE - GT vs LSG"⟩]⟩
theorem parse_eq (elems : List EventElem) :
    parse_commentary_from_soup elems = (elems.filterMap eventRecord).reverse := by
  cases elems <;> simp [parse_commentary_from_soup]

theorem processEvent_length {f : EventFields} {s : String}
    (h : processEvent f = some s) : 6 ≤ s.length := by
  unfold processEvent at h
  split at h
  · exact absurd h (by simp)
  · split at h
    · rename_i hlen
      injection h with h
      subst h
      omega
    · exact absurd h (by simp)

/-- C1: for every commentary panel, parse_commentary_from_soup returns the
reverse of the kept records in DOM encounter order, so its first element is
the last kept record and its last element is the first kept record of the
markup; extraction is a pure function of the markup, hence deterministic. -/
theorem C1_reverse_of_encounter_order (elems : List EventElem) :
    parse_commentary_from_soup elems = (keptRecords elems).reverse ∧
    (parse_commentary_from_soup elems).head? = (keptRecords elems).getLast? ∧
    (parse_commentary_from_soup elems).getLast? = (keptRecords elems).head? := by
  refine ⟨parse_eq elems, ?_, ?_⟩ <;>
    rw [parse_eq] <;> unfold keptRecords <;> simp

/-- C2: evaluating the merge rule at an event whose over label has no
parenthesis and whose run label is empty shows that the output string
contains an empty () pair, contradicting the stated invariant and the source
comment at scraper.py line 198 announcing that empty parens are avoided: the
condition checks the over label for a parenthesis instead of checking the
run label for emptiness. -/
theorem C2_empty_parens_at_failing_input :
    parse_commentary_from_soup
        [Except.ok ⟨some "14.3", none, none, some "Bumrah to Kohli, no run"⟩] =
      ["14.3 () - Bumrah to Kohli, no run"] ∧
    containsSubstr "14.3 () - Bumrah to Kohli, no run" "()" = true := by
  exact ⟨by decide, by decide⟩

/-- C3 counterexample: an event whose joined string has length exactly 6 is
included in the output, so a joined string of 6 characters or shorter can
appear in the result; the cut at scraper.py line 212 only discards length 5
or less. -/
theorem C3_length_six_included :
    parse_commentary_from_soup [Except.ok ⟨none, none, none, some "sixes!"⟩] =
      ["sixes!"] ∧
    ("sixes!" : String).length = 6 := by
  exact ⟨by decide, by decide⟩

/-- C3 (amended): every string in the output of parse_commentary_from_soup
has length at least 6 after trimming; equivalently, a record is discarded by
the length cut exactly when its joined string is 5 characters or shorter. -/
theorem C3_min_length (elems : List EventElem) (s : String)
    (hs : s ∈ parse_commentary_from_soup elems) : 6 ≤ s.length := by
  rw [parse_eq, List.mem_reverse, List.mem_filterMap] at hs
  obtain ⟨e, -, he⟩ := hs
  cases e with
  | error msg => exact absurd he (by simp [eventRecord])
  | ok f => exact processEvent_length he

/-- C3 witness: the amended bound applied at a concrete panel. -/
theorem C3_min_length_witness :
    ("a lovely drive" ∈
        parse_commentary_from_soup [Except.ok ⟨none, none, none, some "a lovely drive"⟩]) ∧
    6 ≤ ("a lovely drive" : String).length :=
  ⟨by decide,
   C3_min_length [Except.ok ⟨none, none, none, some "a lovely drive"⟩]
     "a lovely drive" (by decide)⟩

/-- C8: an event element whose description sub-field is absent or has empty
text contributes no record: removing it from the panel leaves the output of
parse_commentary_from_soup unchanged, whatever its other sub-fields hold. -/
theorem C8_empty_description_skipped (xs ys : List EventElem) (f : EventFields)
    (h : f.text = none ∨ f.text = some "") :
    parse_commentary_from_soup (xs ++ Except.ok f :: ys) =
      parse_commentary_from_soup (xs ++ ys) := by
  have hf : eventRecord (Except.ok f) = none := by
    rcases h with h | h <;> simp [eventRecord, processEvent, h]
  rw [parse_eq, parse_eq, List.filterMap_append, List.filterMap_append,
    List.filterMap_cons, hf]

/-- C8 witness: a concrete panel where the element missing its description
drops out even though its other sub-fields are populated. -/
theorem C8_empty_description_skipped_witness :
    parse_commentary_from_soup
        [Except.ok ⟨some "5.5", some "Four", some "Bumrah to Kohli", none⟩,
         Except.ok ⟨none, none, none, some "a lovely drive"⟩] =
      parse_commentary_from_soup [Except.ok ⟨none, none, none, some "a lovely drive"⟩] :=
  C8_empty_description_skipped []
    [Except.ok ⟨none, none, none, some "a lovely drive"⟩]
    ⟨some "5.5", some "Four", some "Bumrah to Kohli", none⟩ (Or.inl rfl)

/-- C9: a parse exception on a single event element is caught and only that
element is skipped: the output of parse_commentary_from_soup equals the parse
of the panel without that element, so every record of every sibling element
still appears. -/
theorem C9_element_error_skipped (xs ys : List EventElem) (msg : String) :
    parse_commentary_from_soup (xs ++ Except.error msg :: ys) =
      parse_commentary_from_soup (xs ++ ys) := by
  rw [parse_eq, parse_eq, List.filterMap_append, List.filterMap_append,
    List.filterMap_cons]
  simp [eventRecord]

/-- C4 counterexample: in Scenario B the first anchor sits in a container
with class status--live whose text does not contain live; the code demands
the exact class token live or live in the container text after the ancestor
lookup, so the live result is empty instead of containing the first anchor
resolved URL. -/
theorem C4_status_live_class_not_returned :
    scrape_live_matches scenarioBPage = [] ∧
    scrape_live_matches scenarioBPage ≠ ["https://www.iplt20.com/match/2024/1101"] := by
  exact ⟨by decide, by decide⟩

/-- C4 (amended): an anchor is classified live exactly when its nearest
ancestor whose class attribute matches the case-insensitive live pattern
exists and that ancestor either carries the exact class token live or has
text containing live case-insensitively; accordingly, when the status--live
container of Scenario B also signals live through its text, the live result
is exactly the first anchor resolved URL. -/
theorem C4_live_classification_amended :
    scrape_live_matches scenarioBLivePage = ["https://www.iplt20.com/match/2024/1101"] ∧
    ∀ t : LinkTag,
      liveIndicator t = true ↔
        ∃ c, find_parent_live t.ancestors = some c ∧
          (c.classes.contains "live" = true ∨
            containsSubstr (strLower c.textContent) "live" = true) := by
  refine ⟨by decide, ?_⟩
  intro t
  unfold liveIndicator
  cases h : find_parent_live t.ancestors with
  | none => simp
  | some pc => simp [Bool.or_eq_true]

theorem pastLoop_nodup : ∀ (l : List LinkTag) (acc : List String),
    acc.Nodup → (pastLoop l acc).Nodup := by
  intro l
  induction l with
  | nil => intro acc h; simpa [pastLoop] using h
  | cons t rest ih =>
    intro acc h
    cases ht : t.href with
    | none => simp only [pastLoop, ht]; exact ih acc h
    | some murl =>
      simp only [pastLoop, ht]
      by_cases hm : murl = ""
      · simp only [if_pos hm]
        exact ih acc h
      · simp only [if_neg hm]
        by_cases hmem : urljoin BASE_URL murl ∈ acc
        · simp only [if_pos hmem]
          exact ih acc h
        · simp only [if_neg hmem]
          exact ih _ (by simp [List.nodup_append, h, hmem])

theorem liveLoop_nodup : ∀ (l : List LinkTag) (live proc : List String),
    live.Nodup → proc.Nodup → (∀ x ∈ live, x ∈ proc) →
    (liveLoop l live proc).1.Nodup ∧ (liveLoop l live proc).2.Nodup ∧
      ∀ x ∈ (liveLoop l live proc).1, x ∈ (liveLoop l live proc).2 := by
  intro l
  induction l with
  | nil => intro live proc h1 h2 h3; exact ⟨h1, h2, h3⟩
  | cons t rest ih =>
    intro live proc h1 h2 h3
    cases ht : t.href with
    | none => simp only [liveLoop, ht]; exact ih live proc h1 h2 h3
    | some murl =>
      simp only [liveLoop, ht]
      by_cases hm : murl = ""
      · simp only [if_pos hm]
        exact ih live proc h1 h2 h3
      · simp only [if_neg hm]
        by_cases hmem : urljoin BASE_URL murl ∈ proc
        · simp only [if_pos hmem]
          exact ih live proc h1 h2 h3
        · simp only [if_neg hmem]
          have hnl : urljoin BASE_URL murl ∉ live := fun hx => hmem (h3 _ hx)
          by_cases hl : liveIndicator t
          · simp only [if_pos hl]
            refine ih _ _ ?_ ?_ ?_
            · simp [List.nodup_append, h1, hnl]
            · simp [List.nodup_append, h2, hmem]
            · intro x hx
              rcases List.mem_append.mp hx with hx | hx
              · exact List.mem_append.mpr (Or.inl (h3 x hx))
              · exact List.mem_append.mpr (Or.inr hx)
          · simp only [if_neg hl]
            refine ih _ _ h1 ?_ ?_
            · simp [List.nodup_append, h2, hmem]
            · intro x hx
              exact List.mem_append.mpr (Or.inl (h3 x hx))

/-- C6: a single listing scrape never returns two entries with the same
absolute URL: for every listing page, both scrape_live_matches and
scrape_past_matches yield duplicate-free lists, even when the same match link
occurs several times in the markup. -/
theorem C6_no_duplicate_urls (page : ListingPage) :
    (scrape_live_matches page).Nodup ∧ (scrape_past_matches page).Nodup := by
  constructor
  · unfold scrape_live_matches
    split
    · exact List.nodup_nil
    · split
      · exact List.nodup_nil
      · exact (liveLoop_nodup (matchLinkTags page.tags) [] []
          List.nodup_nil List.nodup_nil (by simp)).1
  · unfold scrape_past_matches
    split
    · exact List.nodup_nil
    · split
      · exact List.nodup_nil
      · exact pastLoop_nodup (matchLinkTags page.tags) [] List.nodup_nil

/-- C7: whenever navigation to the match URL fails with a browser or
transport error, safe_get reports failure and scrape_match_commentary returns
the empty list; in this embedding every browser outcome is an explicit value
and the function is total, so no exception crosses the boundary. -/
theorem C7_navigation_failure_empty (p : MatchPage) (e : DrvErr)
    (h : p.navResult = .error e) : scrape_match_commentary p = [] := by
  unfold scrape_match_commentary safe_get
  rw [h]
  simp

/-- C7 witness: a page whose navigation raised a WebDriverException. -/
theorem C7_navigation_failure_empty_witness :
    scrape_match_commentary
      ⟨.error .webdriver, .ok (), [], [], .ok (), .ok (), .ok (), .ok (), true, []⟩ = [] :=
  C7_navigation_failure_empty
    ⟨.error .webdriver, .ok (), [], [], .ok (), .ok (), .ok (), .ok (), true, []⟩
    .webdriver rfl

theorem scroll_term (err : Nat → Bool) (H : Nat → Int) :
    ∀ (fuel k : Nat) (S : Finset ℕ) (j stall : Nat),
      stall ≤ 2 → S.card ≤ k →
      (∀ j', j ≤ j' → H j' ≠ H (j' - 1) → j' ∈ S) →
      1 ≤ j → 3 - stall + 3 * k ≤ fuel →
      (scroll_loop err H fuel j (H (j - 1)) stall).isSome = true := by
  intro fuel
  induction fuel with
  | zero =>
    intro k S j stall hst hcard hS hj hfuel
    exact absurd hfuel (by omega)
  | succ fuel ih =>
    intro k S j stall hst hcard hS hj hfuel
    rw [scroll_loop]
    by_cases he : err j
    · simp [he]
    · rw [if_neg (by simp [he])]
      by_cases heq : H j = H (j - 1)
      · rw [if_pos heq]
        by_cases h3 : 3 ≤ stall + 1
        · simp [h3]
        · rw [if_neg h3]
          have hrw : H j = H ((j + 1) - 1) := by simp
          rw [hrw]
          exact ih k S (j + 1) (stall + 1) (by omega) hcard
            (fun j' hj' hne => hS j' (by omega) hne) (by omega) (by omega)
      · rw [if_neg heq]
        have hjS : j ∈ S := hS j le_rfl heq
        have hk : 1 ≤ k := le_trans (Finset.card_pos.mpr ⟨j, hjS⟩) hcard
        have hcard' : (S.erase j).card ≤ k - 1 := by
          rw [Finset.card_erase_of_mem hjS]
          omega
        have hrw : H j = H ((j + 1) - 1) := by simp
        rw [hrw]
        exact ih (k - 1) (S.erase j) (j + 1) 0 (by omega) hcard'
          (fun j' hj' hne => Finset.mem_erase.mpr ⟨by omega, hS j' (by omega) hne⟩)
          (by omega) (by omega)

/-- C5 counterexample: for the height sequence 0, 0, 0, 1, 1, ... with a
single change (k = 1) the loop needs 6 iterations, so it does not stop within
k + 3 = 4 iterations: two stalled reads precede the change, and three more
follow it. -/
theorem C5_k_plus_three_fails :
    ChangesBounded heightSeqC5 1 ∧
    scroll_page noScrollErr heightSeqC5 (1 + 3) = none ∧
    scroll_page noScrollErr heightSeqC5 6 = some 6 := by
  refine ⟨⟨{3}, by decide, ?_⟩, by decide, by decide⟩
  intro j hj hne
  simp only [heightSeqC5] at hne
  by_cases h3 : j = 3
  · simp [h3]
  · exfalso
    rcases Nat.lt_or_ge j 3 with h | h
    · have hj1 : j - 1 < 3 := by omega
      simp [h, hj1] at hne
    · have h4 : ¬ j < 3 := by omega
      have hj1 : ¬ (j - 1) < 3 := by omega
      simp [h4, hj1] at hne

/-- C5 (amended): the scroll loop always terminates, and for every height
sequence whose value changes at most k times before stabilizing it performs
at most 3k + 3 iterations before stopping: the stall counter resets to 0 on
every height change, so up to two stalled iterations may precede each change,
with three final stalled iterations (or a scripting error) ending the loop.
Termination within n iterations is expressed by fuel n sufficing. -/
theorem C5_scroll_terminates (err : Nat → Bool) (H : Nat → Int) (k : Nat)
    (h : ChangesBounded H k) :
    (scroll_page err H (3 * k + 3)).isSome = true := by
  obtain ⟨S, hcard, hS⟩ := h
  have := scroll_term err H (3 * k + 3) k S 1 0 (by omega) hcard
    (fun j' hj' hne => hS j' hj' hne) (by omega) (by omega)
  simpa [scroll_page] using this

/-- C5 witness: the amended bound applied to a constant height sequence with
no changes. -/
theorem C5_scroll_terminates_witness :
    (scroll_page (fun _ => false) (fun _ => (0 : Int)) (3 * 0 + 3)).isSome = true :=
  C5_scroll_terminates (fun _ => false) (fun _ => (0 : Int)) 0
    ⟨∅, by simp, by simp⟩

theorem liveLoop_append (l₁ l₂ : List LinkTag) :
    ∀ (live proc : List String),
      liveLoop (l₁ ++ l₂) live proc =
        liveLoop l₂ (liveLoop l₁ live proc).1 (liveLoop l₁ live proc).2 := by
  induction l₁ with
  | nil => intro live proc; simp [liveLoop]
  | cons t rest ih =>
    intro live proc
    cases ht : t.href with
    | none =>
      simp only [List.cons_append, liveLoop, ht]
      exact ih _ _
    | some murl =>
      simp only [List.cons_append, liveLoop, ht]
      by_cases hm : murl = ""
      · simp only [if_pos hm]
        exact ih _ _
      · simp only [if_neg hm]
        by_cases hmem : urljoin BASE_URL murl ∈ proc
        · simp only [if_pos hmem]
          exact ih _ _
        · simp only [if_neg hmem]
          exact ih _ _

theorem liveLoop_not_resolving (u : String) :
    ∀ (l : List LinkTag) (live proc : List String),
      (∀ t ∈ l, ∀ m, t.href = some m → m ≠ "" → urljoin BASE_URL m ≠ u) →
      u ∉ live → u ∉ proc →
      u ∉ (liveLoop l live proc).1 ∧ u ∉ (liveLoop l live proc).2 := by
  intro l
  induction l with
  | nil => intro live proc _ h1 h2; exact ⟨h1, h2⟩
  | cons t rest ih =>
    intro live proc hres h1 h2
    have hrest : ∀ t' ∈ rest, ∀ m, t'.href = some m → m ≠ "" → urljoin BASE_URL m ≠ u :=
      fun t' ht' => hres t' (List.mem_cons_of_mem t ht')
    cases ht : t.href with
    | none =>
      simp only [liveLoop, ht]
      exact ih live proc hrest h1 h2
    | some murl =>
      simp only [liveLoop, ht]
      by_cases hm : murl = ""
      · simp only [if_pos hm]
        exact ih live proc hrest h1 h2
      · simp only [if_neg hm]
        have hau : urljoin BASE_URL murl ≠ u := hres t (List.mem_cons_self t rest) murl ht hm
        by_cases hmem : urljoin BASE_URL murl ∈ proc
        · simp only [if_pos hmem]
          exact ih live proc hrest h1 h2
        · simp only [if_neg hmem]
          refine ih _ _ hrest ?_ ?_
          · by_cases hl : liveIndicator t
            · simp only [if_pos hl]
              intro hx
              rcases List.mem_append.mp hx with hx | hx
              · exact h1 hx
              · exact hau (List.mem_singleton.mp hx).symm
            · simpa only [if_neg hl] using h1
          · intro hx
            rcases List.mem_append.mp hx with hx | hx
            · exact h2 hx
            · exact hau (List.mem_singleton.mp hx).symm

theorem liveLoop_processed_stays_out (u : String) :
    ∀ (l : List LinkTag) (live proc : List String),
      u ∉ live → u ∈ proc → u ∉ (liveLoop l live proc).1 := by
  intro l
  induction l with
  | nil => intro live proc h1 _; exact h1
  | cons t rest ih =>
    intro live proc h1 h2
    cases ht : t.href with
    | none =>
      simp only [liveLoop, ht]
      exact ih live proc h1 h2
    | some murl =>
      simp only [liveLoop, ht]
      by_cases hm : murl = ""
      · simp only [if_pos hm]
        exact ih live proc h1 h2
      · simp only [if_neg hm]
        by_cases hmem : urljoin BASE_URL murl ∈ proc
        · simp only [if_pos hmem]
          exact ih live proc h1 h2
        · simp only [if_neg hmem]
          have hau : urljoin BASE_URL murl ≠ u := fun hx => hmem (hx ▸ h2)
          refine ih _ _ ?_ (List.mem_append.mpr (Or.inl h2))
          by_cases hl : liveIndicator t
          · simp only [if_pos hl]
            intro hx
            rcases List.mem_append.mp hx with hx | hx
            · exact h1 hx
            · exact hau (List.mem_singleton.mp hx).symm
          · simpa only [if_neg hl] using h1

/-- C10: in scrape_live_matches, deduplication is applied before live
classification with first-occurrence-wins semantics: when the first anchor
resolving to a URL carries no live indicator, that URL is absent from the
live result, whatever later duplicate occurrences of the same URL carry. -/
theorem C10_first_occurrence_wins (xs ys : List LinkTag) (t : LinkTag) (u : String)
    (hres : resolvesTo t u)
    (hfirst : ∀ t' ∈ xs, ¬ resolvesTo t' u)
    (hnotlive : liveIndicator t = false) :
    u ∉ scrape_live_matches ⟨.ok (), true, xs ++ t :: ys⟩ := by
  obtain ⟨m, hm, hne, hsearch, hurl⟩ := hres
  show u ∉ (liveLoop (matchLinkTags (xs ++ t :: ys)) [] []).1
  have hp : hrefMatches t = true := by
    unfold hrefMatches
    rw [hm]
    exact hsearch
  have hsplit : matchLinkTags (xs ++ t :: ys) =
      matchLinkTags xs ++ t :: matchLinkTags ys := by
    unfold matchLinkTags
    rw [List.filter_append, List.filter_cons_of_pos hp]
  rw [hsplit, liveLoop_append]
  have hxs := liveLoop_not_resolving u (matchLinkTags xs) [] []
    (by
      intro t' ht' m' hm' hne' hurl'
      obtain ⟨htx, hpt⟩ := List.mem_filter.mp ht'
      unfold hrefMatches at hpt
      rw [hm'] at hpt
      exact hfirst t' htx ⟨m', hm', hne', hpt, hurl'⟩)
    (by simp) (by simp)
  obtain ⟨ha, hb⟩ := hxs
  simp only [liveLoop, hm]
  rw [if_neg hne, hurl, if_neg hb, hnotlive]
  simp only [Bool.false_eq_true, if_false]
  exact liveLoop_processed_stays_out u (matchLinkTags ys) _ _ ha
    (List.mem_append.mpr (Or.inr (List.mem_singleton.mpr rfl)))

/-- C10 witness: a fixtures page where the first occurrence of a URL has no
live marker and a later duplicate carries the exact live class token; the URL
is still absent from the live result. -/
theorem C10_first_occurrence_wins_witness :
    resolvesTo tagFirstDup "https://www.iplt20.com/match/2024/1103" ∧
    liveIndicator tagFirstDup = false ∧
    liveIndicator tagLaterDup = true ∧
    "https://www.iplt20.com/match/2024/1103" ∉
      scrape_live_matches ⟨.ok (), true, [tagFirstDup, tagLaterDup]⟩ :=
  ⟨⟨"/match/2024/1103", rfl, by decide, by decide, by decide⟩, by decide, by decide,
   C10_first_occurrence_wins [] [tagLaterDup] tagFirstDup
     "https://www.iplt20.com/match/2024/1103"
     ⟨"/match/2024/1103", rfl, by decide, by decide, by decide⟩
     (by simp) (by decide)⟩

